import Mathlib

/-!
Shallow embedding of the htmlcheck validator (htmlcheck.go).

The HTML tokenizer is an external collaborator of the package: token
streams are modelled as explicit lists of tokens, each carrying the
token type, tag name, attribute list and byte span that the tokenizer
reports for it (via `d.Token()` and `d.GetRawPosition()`).  The `regexp`
package is likewise external and is modelled by an explicit matching
function `RegexMatcher` passed to the definitions that need it:
`rx pat s = some b` models `regexp.MatchString pat s = (b, nil)` and
`rx pat s = none` models a non-nil error.

Go maps are modelled as functions into `Option`; byte offsets as `Nat`.
-/

namespace Htmlcheck

/-- The `ErrorReason` enumeration of htmlcheck.go. -/
inductive ErrorReason where
  | InvTag
  | InvAttribute
  | InvClosedBeforeOpened
  | InvNotProperlyClosed
  | InvDuplicatedAttribute
  | InvEOF
  deriving DecidableEq

/-- `Span` from htmlcheck.go: a byte-offset range. -/
structure Span where
  Start : Nat
  End : Nat
  deriving DecidableEq

/-- `TextPos` from htmlcheck.go: 1-based line/column. -/
structure TextPos where
  Line : Nat
  Column : Nat
  deriving DecidableEq

/-- `ValidationError` from htmlcheck.go. -/
structure ValidationError where
  TagName : String
  AttributeName : String
  Reason : ErrorReason
  Pos : Span
  TextPos : Option TextPos
  deriving DecidableEq

/-- `ValidTag` from htmlcheck.go: one whitelist entry. -/
structure ValidTag where
  Name : String
  Attrs : List String
  AttrRegEx : String
  IsSelfClosing : Bool
  deriving DecidableEq

/-- The `ErrorCallback` function type of htmlcheck.go. -/
abbrev ErrorCallback := String → String → String → ErrorReason → Option ValidationError

/-- One record per invocation of a registered error callback, carrying
exactly the arguments the callback received.  Used to observe how often
and with what the callback was invoked. -/
structure CallbackEvent where
  tagName : String
  attributeName : String
  value : String
  reason : ErrorReason
  deriving DecidableEq

/-- The `Validator` struct of htmlcheck.go.  The three Go maps are
modelled as functions into `Option`/`Bool` (a nil map behaves like an
empty one for lookups, so map initialization in `AddValidTags` needs no
separate modelling). -/
structure Validator where
  validTagMap : String → Option (String → Bool)
  validSelfClosingTags : String → Bool
  errorCallback : Option ErrorCallback
  StopAfterFirstError : Bool
  validTags : String → Option ValidTag

/-- A `Validator{}` zero value: all maps empty, no callback,
`StopAfterFirstError` false. -/
def emptyValidator : Validator :=
  ⟨fun _ => none, fun _ => false, none, false, fun _ => none⟩

/-- The body of the `AddValidTags` loop for a single tag: records the
self-closing flag (only when set!), rebuilds the tag's attribute set,
and stores the rule record.  The "second global tag" branch only logs a
warning and changes no state. -/
def addValidTag (v : Validator) (tag : ValidTag) : Validator :=
  ⟨fun k => if k = tag.Name then some (fun a => tag.Attrs.contains a) else v.validTagMap k,
   if tag.IsSelfClosing then
     (fun k => if k = tag.Name then true else v.validSelfClosingTags k)
   else v.validSelfClosingTags,
   v.errorCallback,
   v.StopAfterFirstError,
   fun k => if k = tag.Name then some tag else v.validTags k⟩

/-- `Validator.AddValidTags` from htmlcheck.go. -/
def AddValidTags (v : Validator) (validTags : List ValidTag) : Validator :=
  validTags.foldl addValidTag v

/-- `Validator.AddValidTag` from htmlcheck.go. -/
def AddValidTag (v : Validator) (validTag : ValidTag) : Validator :=
  AddValidTags v [validTag]

/-- `Validator.RegisterCallback` from htmlcheck.go. -/
def RegisterCallback (v : Validator) (f : ErrorCallback) : Validator :=
  ⟨v.validTagMap, v.validSelfClosingTags, some f, v.StopAfterFirstError, v.validTags⟩

/-- `Validator.IsValidTag` from htmlcheck.go. -/
def IsValidTag (v : Validator) (tagName : String) : Bool :=
  (v.validTagMap tagName).isSome

/-- `Validator.IsValidSelfClosingTag` from htmlcheck.go (the double
lookup in the source collapses to a single one). -/
def IsValidSelfClosingTag (v : Validator) (tagName : String) : Bool :=
  v.validSelfClosingTags tagName

/-- External regexp engine: `rx pat s = some b` models
`regexp.MatchString pat s = (b, nil)`, `none` models an error. -/
abbrev RegexMatcher := String → String → Option Bool

/-- `err == nil && matches` for one `regexp.MatchString` call. -/
def matchOK (rx : RegexMatcher) (pat s : String) : Bool :=
  match rx pat s with
  | some b => b
  | none => false

/-- `Validator.IsValidAttribute` from htmlcheck.go.  In the source,
`v.validTags[""]` (resp. `v.validTags[tagName]`) is dereferenced only
under the guard that `v.validTagMap` has the same key; a validator built
through `AddValidTags` keeps the two maps on the same key set, so the
`none` fallbacks below are unreachable there. -/
def IsValidAttribute (rx : RegexMatcher) (v : Validator) (tagName attrName : String) : Bool :=
  let globalBlock : Bool :=
    match v.validTagMap "" with
    | none => false
    | some gAttrs =>
      if gAttrs attrName then true
      else
        match v.validTags "" with
        | none => false
        | some tag =>
          if tag.AttrRegEx ≠ "" then matchOK rx tag.AttrRegEx attrName else false
  if globalBlock then true
  else
    match v.validTagMap tagName with
    | none => false
    | some attrs =>
      if attrs attrName then true
      else
        match v.validTags tagName with
        | none => false
        | some tag =>
          if tag.AttrRegEx ≠ "" then matchOK rx tag.AttrRegEx attrName else false

/-- `strings.Split str "\n"`, on the character list of `str`. -/
def splitLinesAux : List Char → List Char → List (List Char)
  | [], acc => [acc.reverse]
  | c :: rest, acc =>
    if c = '\n' then acc.reverse :: splitLinesAux rest []
    else splitLinesAux rest (c :: acc)

/-- The `strings.Split(str, "\n")` call of `updateLineColumns`. -/
def splitLines (str : String) : List String :=
  (splitLinesAux str.toList []).map (fun cs => ⟨cs⟩)

/-- The inner loop of `updateLineColumns`: scan the lines, accumulating
`charCount`, until the error's start offset falls inside a line.  The
loop only reaches line `i` once `start` is at least the accumulated
count, so the `Nat` subtraction is never truncated. -/
def findTextPos (start : Nat) : List String → Nat → Nat → Option TextPos
  | [], _, _ => none
  | l :: rest, i, charCount =>
    let lineLen := l.length + 1
    if start < charCount + lineLen then some ⟨i + 1, start - charCount + 1⟩
    else findTextPos start rest (i + 1) (charCount + lineLen)

/-- `updateLineColumns` from htmlcheck.go.  The Go version mutates each
error in place; the model returns the updated list. -/
def updateLineColumns (str : String) (errors : List ValidationError) : List ValidationError :=
  errors.map fun k =>
    match findTextPos k.Pos.Start (splitLines str) 0 0 with
    | some tp => { k with TextPos := some tp }
    | none => k

/-- `Validator.checkErrorCallback` from htmlcheck.go.  Also returns the
list of callback invocations this call performed (one when a callback is
registered, none otherwise). -/
def checkErrorCallback (v : Validator) (tagName attr value : String) (span : Span)
    (reason : ErrorReason) : Option ValidationError × List CallbackEvent :=
  match v.errorCallback with
  | some f => (f tagName attr value reason, [⟨tagName, attr, value, reason⟩])
  | none => (some ⟨tagName, attr, reason, span, none⟩, [])

/-- `indexOf` from htmlcheck.go; `none` models `-1`. -/
def indexOf : List String → String → Option Nat
  | [], _ => none
  | k :: rest, val => if k = val then some 0 else (indexOf rest val).map (· + 1)

/-- `popLast` from htmlcheck.go. -/
def popLast (list : List String) : List String :=
  list.dropLast

/-- One token type per `html.TokenType` value the engine distinguishes. -/
inductive TokenType where
  | ErrorToken
  | TextToken
  | StartTagToken
  | EndTagToken
  | SelfClosingTagToken
  | CommentToken
  | DoctypeToken
  deriving DecidableEq

/-- One attribute key/value pair of a token. -/
structure Attribute where
  Key : String
  Val : String
  deriving DecidableEq

/-- One token as delivered by the external tokenizer, together with the
byte span `getPosition` reports for it.  `tokenType` is both the value
`d.Next()` returns and the `Type` field of `d.Token()` (they agree). -/
structure Token where
  tokenType : TokenType
  Data : String
  Attr : List Attribute
  pos : Span
  deriving DecidableEq

/-- The attribute loop of `checkToken`: validity check, then duplicate
tracking, threading the set of attribute keys seen so far in this token
(`attrs` in the source). -/
def checkAttrs (rx : RegexMatcher) (v : Validator) (tagName : String) (pos : Span) :
    List Attribute → List String → Option ValidationError × List CallbackEvent
  | [], _ => (none, [])
  | attr :: rest, seen =>
    match (if !(IsValidAttribute rx v tagName attr.Key) then
             checkErrorCallback v tagName attr.Key attr.Val pos ErrorReason.InvAttribute
           else (none, [])) with
    | (some err, ev1) => (some err, ev1)
    | (none, ev1) =>
      match (if seen.contains attr.Key then
               checkErrorCallback v tagName attr.Key attr.Val pos ErrorReason.InvDuplicatedAttribute
             else (none, [])) with
      | (some err, ev2) => (some err, ev1 ++ ev2)
      | (none, ev2) =>
        let seen1 := if seen.contains attr.Key then seen else attr.Key :: seen
        match checkAttrs rx v tagName pos rest seen1 with
        | (e3, ev3) => (e3, ev1 ++ ev2 ++ ev3)

/-- `Validator.checkToken` from htmlcheck.go: consume one token, return
the new parent stack, the error the call returns (if any), and the
callback invocations performed. -/
def checkToken (rx : RegexMatcher) (v : Validator) (tok : Token) (parents : List String) :
    List String × Option ValidationError × List CallbackEvent :=
  if tok.tokenType = TokenType.ErrorToken then
    (parents, some ⟨"", "", ErrorReason.InvEOF, ⟨0, 0⟩, none⟩, [])
  else if tok.tokenType = TokenType.EndTagToken ∨ tok.tokenType = TokenType.StartTagToken ∨
      tok.tokenType = TokenType.SelfClosingTagToken then
    let pos := tok.pos
    let tagName := tok.Data
    match (if !(IsValidTag v tagName) then
             checkErrorCallback v tagName "" "" pos ErrorReason.InvTag
           else (none, [])) with
    | (some err, ev1) => (parents, some err, ev1)
    | (none, ev1) =>
      let parents1 :=
        if tok.tokenType = TokenType.StartTagToken ∨
            tok.tokenType = TokenType.SelfClosingTagToken then
          parents ++ [tagName]
        else parents
      match checkAttrs rx v tagName pos tok.Attr [] with
      | (some err, ev2) => (parents1, some err, ev1 ++ ev2)
      | (none, ev2) =>
        if tok.tokenType = TokenType.EndTagToken then
          if parents1.getLast? = some tagName then
            (popLast parents1, none, ev1 ++ ev2)
          else
            match indexOf parents1 tagName with
            | some index =>
              let missingTagName := parents1.getLast?.getD ""
              let parents2 := parents1.take index
              if !(IsValidSelfClosingTag v missingTagName) then
                match checkErrorCallback v missingTagName "" "" pos
                    ErrorReason.InvNotProperlyClosed with
                | (e3, ev3) => (parents2, e3, ev1 ++ ev2 ++ ev3)
              else (parents2, none, ev1 ++ ev2)
            | none =>
              match checkErrorCallback v tagName "" "" pos
                  ErrorReason.InvClosedBeforeOpened with
              | (e3, ev3) => (parents1, e3, ev1 ++ ev2 ++ ev3)
        else (parents1, none, ev1 ++ ev2)
  else (parents, none, [])

/-- `Validator.checkParents` from htmlcheck.go: the end-of-input sweep.
At EOF the tokenizer position no longer changes, so the span is a single
parameter. -/
def checkParents (v : Validator) (pos : Span) :
    List String → Option ValidationError × List CallbackEvent
  | [] => (none, [])
  | tagName :: rest =>
    if IsValidSelfClosingTag v tagName then checkParents v pos rest
    else
      match checkErrorCallback v tagName "" "" pos ErrorReason.InvNotProperlyClosed with
      | (some err, ev) => (some err, ev)
      | (none, ev) =>
        match checkParents v pos rest with
        | (e2, ev2) => (e2, ev ++ ev2)

/-- The main loop of `Validator.ValidateHtml`: returns the collected
errors, the final parent stack, the callback invocations, and whether
the loop returned early through `StopAfterFirstError`.  An exhausted
token list models the tokenizer returning `ErrorToken` (EOF). -/
def validateLoop (rx : RegexMatcher) (v : Validator) :
    List Token → List String → List ValidationError × List String × List CallbackEvent × Bool
  | [], parents => ([], parents, [], false)
  | tok :: rest, parents =>
    match checkToken rx v tok parents with
    | (parents1, some e, evs) =>
      if e.Reason = ErrorReason.InvEOF then ([], parents1, evs, false)
      else if v.StopAfterFirstError then ([e], parents1, evs, true)
      else
        match validateLoop rx v rest parents1 with
        | (errs, ps, evs2, stopped) => (e :: errs, ps, evs ++ evs2, stopped)
    | (parents1, none, evs) =>
      match validateLoop rx v rest parents1 with
      | (errs, ps, evs2, stopped) => (errs, ps, evs ++ evs2, stopped)

/-- `Validator.ValidateHtml` from htmlcheck.go, over the token stream
the tokenizer produces for the input.  Returns the error sequence and
the callback invocations performed. -/
def ValidateHtml (rx : RegexMatcher) (v : Validator) (tokens : List Token) (eofPos : Span) :
    List ValidationError × List CallbackEvent :=
  match validateLoop rx v tokens [] with
  | (errs, parents, evs, stopped) =>
    if stopped then (errs, evs)
    else
      match checkParents v eofPos parents with
      | (some e, evs2) => (errs ++ [e], evs ++ evs2)
      | (none, evs2) => (errs, evs ++ evs2)

/-- `Validator.ValidateHtmlString` from htmlcheck.go: run the engine on
the token stream of `str` and enrich the errors with line/column. -/
def ValidateHtmlString (rx : RegexMatcher) (v : Validator) (str : String)
    (tokens : List Token) (eofPos : Span) : List ValidationError × List CallbackEvent :=
  match ValidateHtml rx v tokens eofPos with
  | (errs, evs) => (updateLineColumns str errs, evs)

/-! Concrete fixtures used by witnesses and counterexamples. -/

/-- A regexp engine under which no pattern matches (no rule below
registers a pattern, so any matcher gives the same runs). -/
def rx0 : RegexMatcher := fun _ _ => some false

/-- The registry of htmlcheck_test.go's `TestMain`: `a` self-closing
with attribute `href`; `b`, `c` non-self-closing with attribute `id`. -/
def vT : Validator :=
  AddValidTags emptyValidator
    [⟨"a", ["href"], "", true⟩, ⟨"b", ["id"], "", false⟩, ⟨"c", ["id"], "", false⟩]

/-- Registry `{b, c : non-self-closing}` of spec scenario 4. -/
def vBC : Validator :=
  AddValidTags emptyValidator [⟨"b", ["id"], "", false⟩, ⟨"c", ["id"], "", false⟩]

/-- `<b>` at offsets 0-3 of `"<b><c></b></c>"`. -/
def tokStartB : Token := ⟨TokenType.StartTagToken, "b", [], ⟨0, 3⟩⟩

/-- `<c>` at offsets 3-6 of `"<b><c></b></c>"`. -/
def tokStartC : Token := ⟨TokenType.StartTagToken, "c", [], ⟨3, 6⟩⟩

/-- `</b>` at offsets 6-10 of `"<b><c></b></c>"`. -/
def tokEndB : Token := ⟨TokenType.EndTagToken, "b", [], ⟨6, 10⟩⟩

/-- `</c>` at offsets 10-14 of `"<b><c></b></c>"`. -/
def tokEndC : Token := ⟨TokenType.EndTagToken, "c", [], ⟨10, 14⟩⟩

/-- A start token for a tag `x` absent from every fixture registry,
carrying the same attribute twice. -/
def tokX : Token := ⟨TokenType.StartTagToken, "x", [⟨"k", "v"⟩, ⟨"k", "v"⟩], ⟨0, 3⟩⟩

/-- A callback that returns nothing for every violation. -/
def suppressCb : ErrorCallback := fun _ _ _ _ => none

/-- `v` with the always-suppressing callback registered. -/
def withSuppress (v : Validator) : Validator := RegisterCallback v suppressCb

/-- `v` with no callback registered. -/
def withoutCallback (v : Validator) : Validator :=
  ⟨v.validTagMap, v.validSelfClosingTags, none, v.StopAfterFirstError, v.validTags⟩

/-- A literal validator with a global rule (attribute `id`, pattern
`^data-`) and a rule for tag `a` (attribute `href`, no pattern), with
`validTagMap` and `validTags` on the same key set, as `AddValidTags`
keeps them. -/
def vLit : Validator :=
  ⟨fun k =>
     if k = "" then some (fun a => a = "id")
     else if k = "a" then some (fun a => a = "href")
     else none,
   fun _ => false, none, false,
   fun k =>
     if k = "" then some ⟨"", ["id"], "^data-", false⟩
     else if k = "a" then some ⟨"a", ["href"], "", false⟩
     else none⟩

/-- A matcher under which the pattern `^data-` matches exactly the
string `data-x`. -/
def rxData : RegexMatcher := fun pat s => some (pat = "^data-" && s = "data-x")

/-- A rule registering `a` as self-closing with attribute `x`. -/
def r9a : ValidTag := ⟨"a", ["x"], "", true⟩

/-- A rule re-registering `a` as non-self-closing with attribute `y`. -/
def r9b : ValidTag := ⟨"a", ["y"], "", false⟩

/-- `a` registered self-closing, then re-registered non-self-closing. -/
def v9 : Validator := AddValidTags emptyValidator [r9a, r9b]

/-- An error whose span starts at byte offset 4 (inside the second line
of `"ab\ncd"`). -/
def err0 : ValidationError := ⟨"b", "k", ErrorReason.InvAttribute, ⟨4, 5⟩, none⟩

/-! Spec-side definitions, to be compared with the source's. -/

/-- Check (a) of the spec's attribute clause: exact membership in the
global rule's allowed-attribute set. -/
def globalExactAttr (v : Validator) (attrName : String) : Bool :=
  match v.validTagMap "" with
  | some gAttrs => gAttrs attrName
  | none => false

/-- Check (b): the global rule's attribute pattern. -/
def globalPatternAttr (rx : RegexMatcher) (v : Validator) (attrName : String) : Bool :=
  match v.validTags "" with
  | some tag => if tag.AttrRegEx ≠ "" then matchOK rx tag.AttrRegEx attrName else false
  | none => false

/-- Check (c): exact membership in the specific tag's
allowed-attribute set. -/
def tagExactAttr (v : Validator) (tagName attrName : String) : Bool :=
  match v.validTagMap tagName with
  | some attrs => attrs attrName
  | none => false

/-- Check (d): the specific tag's attribute pattern. -/
def tagPatternAttr (rx : RegexMatcher) (v : Validator) (tagName attrName : String) : Bool :=
  match v.validTags tagName with
  | some tag => if tag.AttrRegEx ≠ "" then matchOK rx tag.AttrRegEx attrName else false
  | none => false

/-- Modelled from the spec's words (section 4.1): evaluate (a), (b),
(c), (d) in order and return true at the first match, false when none
matches.  Compared with the source's `IsValidAttribute`. -/
def isValidAttributeSpec (rx : RegexMatcher) (v : Validator) (tagName attrName : String) : Bool :=
  globalExactAttr v attrName || globalPatternAttr rx v attrName ||
    tagExactAttr v tagName attrName || tagPatternAttr rx v tagName attrName

/-- The `charCount` that `updateLineColumns` has accumulated after
passing the first `i` lines: the sum of `length + 1` over them. -/
def cum (lines : List String) : Nat → Nat
  | 0 => 0
  | i + 1 =>
    match lines with
    | [] => 0
    | l :: rest => (l.length + 1) + cum rest i

/-! Helper lemmas. -/

/-- `indexOf` returns `none` exactly for values not in the list. -/
theorem indexOf_eq_none_iff (l : List String) (a : String) : indexOf l a = none ↔ a ∉ l := by
  induction l with
  | nil => simp [indexOf]
  | cons x xs ih =>
    by_cases hx : x = a
    · simp [indexOf, hx]
    · simp [indexOf, hx, ih, Ne.symm hx]

/-- The last element of a list is a member of it. -/
theorem getLast?_ne_of_not_mem {l : List String} {a : String} (h : a ∉ l) :
    l.getLast? ≠ some a := by
  intro hlast
  rcases List.mem_getLast?_eq_getLast (l := l) (x := a) (by simp [hlast]) with ⟨hne, hEq⟩
  exact h (hEq ▸ List.getLast_mem hne)

/-! Claim theorems. -/

/-- C1: processing an end token (for a registered tag, carrying no
attributes, with no callback registered) whose tag name sits in the
parent stack at index `i` but not on top truncates the stack to its
first `i` entries and returns exactly one `NotProperlyClosed` violation
naming the entry that was on top just before truncation — none at all
when that top entry is registered self-closing — and no violation for
the matched name or any skipped ancestor. -/
theorem claim_C1_end_tag_mid_stack (rx : RegexMatcher) (v : Validator) (tok : Token)
    (parents : List String) (i : Nat)
    (htype : tok.tokenType = TokenType.EndTagToken)
    (hattrs : tok.Attr = [])
    (hvalid : IsValidTag v tok.Data = true)
    (hcb : v.errorCallback = none)
    (htop : parents.getLast? ≠ some tok.Data)
    (hidx : indexOf parents tok.Data = some i) :
    checkToken rx v tok parents =
      (parents.take i,
       if IsValidSelfClosingTag v (parents.getLast?.getD "") then none
       else some ⟨parents.getLast?.getD "", "", ErrorReason.InvNotProperlyClosed, tok.pos, none⟩,
       ([] : List CallbackEvent)) := by
  by_cases hsc : IsValidSelfClosingTag v (parents.getLast?.getD "") = true
  · simp [checkToken, htype, hattrs, hvalid, hcb, htop, hidx, checkAttrs, hsc]
  · simp only [Bool.not_eq_true] at hsc
    simp [checkToken, htype, hattrs, hvalid, hcb, htop, hidx, checkAttrs, hsc,
      checkErrorCallback]

/-- Witness for C1: `</b>` against stack `[b, c]` under the test
registry: the stack truncates to `[]` and the single violation names
`c`, the top entry before truncation. -/
theorem claim_C1_witness :
    checkToken rx0 vT tokEndB ["b", "c"] =
      (([] : List String),
       some ⟨"c", "", ErrorReason.InvNotProperlyClosed, ⟨6, 10⟩, none⟩,
       ([] : List CallbackEvent)) :=
  claim_C1_end_tag_mid_stack rx0 vT tokEndB ["b", "c"] 0 rfl rfl rfl rfl
    (by decide) (by decide)

/-- C6: an end token (registered tag, no attributes, no callback) whose
tag name occurs nowhere in the parent stack returns exactly one
`ClosedBeforeOpened` violation for that name and leaves the stack
unchanged. -/
theorem claim_C6_dangling_close (rx : RegexMatcher) (v : Validator) (tok : Token)
    (parents : List String)
    (htype : tok.tokenType = TokenType.EndTagToken)
    (hattrs : tok.Attr = [])
    (hvalid : IsValidTag v tok.Data = true)
    (hcb : v.errorCallback = none)
    (hidx : indexOf parents tok.Data = none) :
    checkToken rx v tok parents =
      (parents, some ⟨tok.Data, "", ErrorReason.InvClosedBeforeOpened, tok.pos, none⟩,
       ([] : List CallbackEvent)) := by
  have hmem : tok.Data ∉ parents := (indexOf_eq_none_iff parents tok.Data).mp hidx
  have htop := getLast?_ne_of_not_mem hmem
  simp [checkToken, htype, hattrs, hvalid, hcb, htop, hidx, checkAttrs, checkErrorCallback]

/-- Witness for C6: `</c>` against stack `[b]` under the test registry:
one `ClosedBeforeOpened` for `c`, stack still `[b]`. -/
theorem claim_C6_witness :
    checkToken rx0 vT tokEndC ["b"] =
      (["b"], some ⟨"c", "", ErrorReason.InvClosedBeforeOpened, ⟨10, 14⟩, none⟩,
       ([] : List CallbackEvent)) :=
  claim_C6_dangling_close rx0 vT tokEndC ["b"] rfl rfl rfl rfl (by decide)

/-- Counterexample to C4: on registry `{b, c}` and the token stream of
`"<b><c></b></c>"`, the engine produces two violations, not the single
one the claim asserts — the trailing `</c>` finds an empty stack and
yields `ClosedBeforeOpened`. -/
theorem claim_C4_counterexample :
    ((ValidateHtml rx0 vBC [tokStartB, tokStartC, tokEndB, tokEndC] ⟨14, 14⟩).1).length ≠ 1 := by
  decide

/-- C4 (amended): on registry `{b, c}` and the token stream of
`"<b><c></b></c>"`, validation yields exactly two violations:
`NotProperlyClosed` for `c` at `</b>`, then `ClosedBeforeOpened` for
`c` at the trailing `</c>`; the end-of-input sweep adds nothing since
the stack is empty. -/
theorem claim_C4_two_violations :
    ValidateHtml rx0 vBC [tokStartB, tokStartC, tokEndB, tokEndC] ⟨14, 14⟩ =
      ([⟨"c", "", ErrorReason.InvNotProperlyClosed, ⟨6, 10⟩, none⟩,
        ⟨"c", "", ErrorReason.InvClosedBeforeOpened, ⟨10, 14⟩, none⟩],
       ([] : List CallbackEvent)) := by
  decide

/-- Counterexample to C3: with no callback registered, a start token
for the unregistered tag `x` carrying a duplicated attribute returns
only the `UnknownTag` violation: the tag is not pushed (the stack stays
`[]`, not `[x]`) and no attribute violation is produced, so the unknown
tag does prevent the push and the attribute checks. -/
theorem claim_C3_counterexample :
    (checkToken rx0 emptyValidator tokX []).1 = [] ∧
    (checkToken rx0 emptyValidator tokX []).1 ≠ ["x"] ∧
    (checkToken rx0 emptyValidator tokX []).2.1 =
      some ⟨"x", "", ErrorReason.InvTag, ⟨0, 3⟩, none⟩ ∧
    (checkToken rx0 emptyValidator tokX []).2.2 = [] := by
  decide

/-- C3 (amended): a token with an unregistered tag name yields exactly
one `UnknownTag`; with no callback registered that violation is
returned immediately, skipping the token's stack push, attribute checks
and end-tag resolution, while under a callback that suppresses it the
push happens and the attribute checks run. -/
theorem claim_C3_unknown_tag_behavior (rx : RegexMatcher) (v : Validator) (tok : Token)
    (parents : List String)
    (htype : tok.tokenType = TokenType.EndTagToken ∨ tok.tokenType = TokenType.StartTagToken ∨
      tok.tokenType = TokenType.SelfClosingTagToken)
    (hinv : IsValidTag v tok.Data = false) :
    (v.errorCallback = none →
      checkToken rx v tok parents =
        (parents, some ⟨tok.Data, "", ErrorReason.InvTag, tok.pos, none⟩,
         ([] : List CallbackEvent))) ∧
    (∀ f : ErrorCallback, v.errorCallback = some f → (∀ t a val r, f t a val r = none) →
      tok.tokenType = TokenType.StartTagToken →
      checkToken rx v tok parents =
        (parents ++ [tok.Data],
         (checkAttrs rx v tok.Data tok.pos tok.Attr []).1,
         ⟨tok.Data, "", "", ErrorReason.InvTag⟩ ::
           (checkAttrs rx v tok.Data tok.pos tok.Attr []).2)) := by
  constructor
  · intro hcb
    rcases htype with h | h | h <;>
      simp [checkToken, h, hinv, checkErrorCallback, hcb]
  · intro f hcb hnone hstart
    rcases hA : checkAttrs rx v tok.Data tok.pos tok.Attr [] with ⟨e2, ev2⟩
    cases e2 <;>
      simp [checkToken, hstart, hinv, checkErrorCallback, hcb, hnone, hA]

/-- Witness for C3 (amended), suppression half: under the suppressing
callback the unknown start tag `x` is pushed and its attributes are
checked. -/
theorem claim_C3_witness :
    checkToken rx0 (withSuppress emptyValidator) tokX [] =
      (([] : List String) ++ ["x"],
       (checkAttrs rx0 (withSuppress emptyValidator) "x" ⟨0, 3⟩ tokX.Attr []).1,
       ⟨"x", "", "", ErrorReason.InvTag⟩ ::
         (checkAttrs rx0 (withSuppress emptyValidator) "x" ⟨0, 3⟩ tokX.Attr []).2) :=
  (claim_C3_unknown_tag_behavior rx0 (withSuppress emptyValidator) tokX []
      (Or.inr (Or.inl rfl)) rfl).2 suppressCb rfl (fun _ _ _ _ => rfl) rfl

/-- C10: for a start token with an unregistered tag name, the presence
of a suppressing callback changes the structural effect: with no
callback, `checkToken` returns the `UnknownTag` violation before the
push and before any attribute check; with a callback that returns
nothing, the tag is pushed and the attributes are checked (their
callback invocations follow the `UnknownTag` one). -/
theorem claim_C10_callback_alters_flow (rx : RegexMatcher) (v : Validator) (tok : Token)
    (parents : List String)
    (hstart : tok.tokenType = TokenType.StartTagToken)
    (hinv : IsValidTag v tok.Data = false) :
    checkToken rx (withoutCallback v) tok parents =
      (parents, some ⟨tok.Data, "", ErrorReason.InvTag, tok.pos, none⟩,
       ([] : List CallbackEvent)) ∧
    checkToken rx (withSuppress v) tok parents =
      (parents ++ [tok.Data],
       (checkAttrs rx (withSuppress v) tok.Data tok.pos tok.Attr []).1,
       ⟨tok.Data, "", "", ErrorReason.InvTag⟩ ::
         (checkAttrs rx (withSuppress v) tok.Data tok.pos tok.Attr []).2) := by
  constructor
  · simp [checkToken, hstart, checkErrorCallback, withoutCallback, IsValidTag] at hinv ⊢
    simp [hinv]
  · have hcb : (withSuppress v).errorCallback = some suppressCb := rfl
    have hinv2 : IsValidTag (withSuppress v) tok.Data = false := hinv
    rcases hA : checkAttrs rx (withSuppress v) tok.Data tok.pos tok.Attr [] with ⟨e2, ev2⟩
    cases e2 <;>
      simp [checkToken, hstart, hinv2, checkErrorCallback, hcb, suppressCb, hA]

/-- With `StopAfterFirstError` unset the main loop never returns
early. -/
theorem validateLoop_not_stopped (rx : RegexMatcher) (v : Validator)
    (hstop : v.StopAfterFirstError = false) :
    ∀ (tokens : List Token) (parents : List String),
      (validateLoop rx v tokens parents).2.2.2 = false := by
  intro tokens
  induction tokens with
  | nil => intro parents; simp [validateLoop]
  | cons tok rest ih =>
    intro parents
    rcases hC : checkToken rx v tok parents with ⟨p1, e, evs⟩
    cases e with
    | none =>
      rcases hL : validateLoop rx v rest p1 with ⟨errs, ps, evs2, stopped⟩
      have hs := ih p1
      rw [hL] at hs
      simp at hs
      simp [validateLoop, hC, hL, hs]
    | some err =>
      by_cases hEOF : err.Reason = ErrorReason.InvEOF
      · simp [validateLoop, hC, hEOF]
      · rcases hL : validateLoop rx v rest p1 with ⟨errs, ps, evs2, stopped⟩
        have hs := ih p1
        rw [hL] at hs
        simp at hs
        simp [validateLoop, hC, hEOF, hstop, hL, hs]

/-- C2: at end of input, with no callback and `StopAfterFirstError`
unset, the sweep scans the remaining stack in stored order, skips
self-closing entries, and returns at most one `NotProperlyClosed`
violation — for the first non-self-closing entry — which is the only
violation the result sequence gains after the main loop. -/
theorem claim_C2_sweep_single_report (rx : RegexMatcher) (v : Validator) (parents : List String)
    (pos : Span) (tokens : List Token)
    (hcb : v.errorCallback = none)
    (hstop : v.StopAfterFirstError = false) :
    (checkParents v pos parents).1 =
      (parents.find? (fun t => !(IsValidSelfClosingTag v t))).map
        (fun t => (⟨t, "", ErrorReason.InvNotProperlyClosed, pos, none⟩ : ValidationError)) ∧
    (ValidateHtml rx v tokens pos).1 =
      (validateLoop rx v tokens []).1 ++
        ((checkParents v pos (validateLoop rx v tokens []).2.1).1).toList := by
  constructor
  · induction parents with
    | nil => simp [checkParents]
    | cons t rest ih =>
      by_cases hsc : IsValidSelfClosingTag v t = true
      · simp [checkParents, hsc, List.find?, ih]
      · simp only [Bool.not_eq_true] at hsc
        simp [checkParents, hsc, List.find?, checkErrorCallback, hcb]
  · rcases hL : validateLoop rx v tokens [] with ⟨errs, ps, evs, stopped⟩
    have hns := validateLoop_not_stopped rx v hstop tokens []
    rw [hL] at hns
    simp at hns
    subst hns
    rcases hP : checkParents v pos ps with ⟨eo, evs2⟩
    cases eo <;> simp [ValidateHtml, hL, hP]

/-- Witness for C2: stack `[a, b, c]` under the test registry (`a`
self-closing): the sweep reports only `b`, the first non-self-closing
entry, and `ValidateHtml` appends exactly that sweep result. -/
theorem claim_C2_witness :
    (checkParents vT ⟨0, 0⟩ ["a", "b", "c"]).1 =
      ((["a", "b", "c"].find? (fun t => !(IsValidSelfClosingTag vT t))).map
        (fun t => (⟨t, "", ErrorReason.InvNotProperlyClosed, ⟨0, 0⟩, none⟩ : ValidationError))) ∧
    (ValidateHtml rx0 vT [tokStartB] ⟨0, 0⟩).1 =
      (validateLoop rx0 vT [tokStartB] []).1 ++
        ((checkParents vT ⟨0, 0⟩ (validateLoop rx0 vT [tokStartB] []).2.1).1).toList :=
  claim_C2_sweep_single_report rx0 vT ["a", "b", "c"] ⟨0, 0⟩ [tokStartB] rfl rfl

/-- Witness for C10: the unregistered start tag `x` with a duplicated
attribute against the empty registry, both without a callback and with
the suppressing one. -/
theorem claim_C10_witness :
    checkToken rx0 (withoutCallback emptyValidator) tokX [] =
      (([] : List String), some ⟨"x", "", ErrorReason.InvTag, ⟨0, 3⟩, none⟩,
       ([] : List CallbackEvent)) ∧
    checkToken rx0 (withSuppress emptyValidator) tokX [] =
      (([] : List String) ++ ["x"],
       (checkAttrs rx0 (withSuppress emptyValidator) "x" ⟨0, 3⟩ tokX.Attr []).1,
       ⟨"x", "", "", ErrorReason.InvTag⟩ ::
         (checkAttrs rx0 (withSuppress emptyValidator) "x" ⟨0, 3⟩ tokX.Attr []).2) :=
  claim_C10_callback_alters_flow rx0 emptyValidator tokX [] rfl rfl

/-- With a callback that always returns nothing, `checkErrorCallback`
suppresses the error but records the invocation. -/
theorem checkErrorCallback_suppress (v : Validator) (f : ErrorCallback)
    (hcb : v.errorCallback = some f) (hnone : ∀ t a val r, f t a val r = none)
    (t a val : String) (pos : Span) (r : ErrorReason) :
    checkErrorCallback v t a val pos r = (none, [⟨t, a, val, r⟩]) := by
  simp [checkErrorCallback, hcb, hnone]

/-- Under an always-suppressing callback the attribute loop never
returns an error. -/
theorem checkAttrs_suppress (rx : RegexMatcher) (v : Validator) (f : ErrorCallback)
    (hcb : v.errorCallback = some f) (hnone : ∀ t a val r, f t a val r = none)
    (tagName : String) (pos : Span) :
    ∀ (attrs : List Attribute) (seen : List String),
      (checkAttrs rx v tagName pos attrs seen).1 = none := by
  intro attrs
  induction attrs with
  | nil => intro seen; simp [checkAttrs]
  | cons attr rest ih =>
    intro seen
    by_cases h1 : IsValidAttribute rx v tagName attr.Key = true <;>
      by_cases h2 : attr.Key ∈ seen <;>
        simp [checkAttrs, h1, h2, checkErrorCallback_suppress v f hcb hnone, ih]

/-- Under an always-suppressing callback `checkToken` returns no error
except the internal EOF sentinel. -/
theorem checkToken_suppress (rx : RegexMatcher) (v : Validator) (f : ErrorCallback)
    (hcb : v.errorCallback = some f) (hnone : ∀ t a val r, f t a val r = none)
    (tok : Token) (parents : List String) :
    (checkToken rx v tok parents).2.1 = none ∨
    (checkToken rx v tok parents).2.1 =
      some ⟨"", "", ErrorReason.InvEOF, ⟨0, 0⟩, none⟩ := by
  by_cases hE : tok.tokenType = TokenType.ErrorToken
  · right; simp [checkToken, hE]
  left
  by_cases hS : tok.tokenType = TokenType.EndTagToken ∨ tok.tokenType = TokenType.StartTagToken ∨
      tok.tokenType = TokenType.SelfClosingTagToken
  case neg => simp [checkToken, hE, hS]
  rcases hA : checkAttrs rx v tok.Data tok.pos tok.Attr [] with ⟨e2, ev2⟩
  have he2 : e2 = none := by
    have h := checkAttrs_suppress rx v f hcb hnone tok.Data tok.pos tok.Attr []
    rw [hA] at h
    simpa using h
  subst he2
  simp only [checkToken, hE, hS, checkErrorCallback_suppress v f hcb hnone, hA,
    if_false, if_true, ite_true, ite_false]
  repeat' split
  all_goals simp_all [ite_eq_iff]

/-- Under an always-suppressing callback the sweep returns no error. -/
theorem checkParents_suppress (v : Validator) (f : ErrorCallback)
    (hcb : v.errorCallback = some f) (hnone : ∀ t a val r, f t a val r = none) (pos : Span) :
    ∀ parents : List String, (checkParents v pos parents).1 = none := by
  intro parents
  induction parents with
  | nil => simp [checkParents]
  | cons t rest ih =>
    by_cases hsc : IsValidSelfClosingTag v t = true
    · simp [checkParents, hsc, ih]
    · simp only [Bool.not_eq_true] at hsc
      rcases hrec : checkParents v pos rest with ⟨e2, ev2⟩
      have h2 : e2 = none := by rw [hrec] at ih; simpa using ih
      subst h2
      simp [checkParents, hsc, checkErrorCallback_suppress v f hcb hnone, hrec]

/-- Under an always-suppressing callback the main loop collects no
errors. -/
theorem validateLoop_suppress (rx : RegexMatcher) (v : Validator) (f : ErrorCallback)
    (hcb : v.errorCallback = some f) (hnone : ∀ t a val r, f t a val r = none) :
    ∀ (tokens : List Token) (parents : List String),
      (validateLoop rx v tokens parents).1 = [] := by
  intro tokens
  induction tokens with
  | nil => intro parents; simp [validateLoop]
  | cons tok rest ih =>
    intro parents
    rcases hC : checkToken rx v tok parents with ⟨p1, e, evs⟩
    have hsup := checkToken_suppress rx v f hcb hnone tok parents
    rw [hC] at hsup
    simp at hsup
    rcases hL : validateLoop rx v rest p1 with ⟨errs, ps, evs2, stopped⟩
    have herrs : errs = [] := by
      have h := ih p1
      rw [hL] at h
      simpa using h
    subst herrs
    rcases hsup with h | h
    · subst h; simp [validateLoop, hC, hL]
    · subst h; simp [validateLoop, hC, hL]

/-- C7: a callback returning nothing suppresses every violation from
the output sequence while still being invoked for each detected
violation; concretely, for an unclosed `<b>` the suppressed run ends
with an empty error sequence while the callback invocation log shows
exactly the sweep's `NotProperlyClosed` call. -/
theorem claim_C7_suppressing_callback :
    (∀ (rx : RegexMatcher) (v : Validator) (f : ErrorCallback) (tokens : List Token) (pos : Span),
      v.errorCallback = some f → (∀ t a val r, f t a val r = none) →
      (ValidateHtml rx v tokens pos).1 = []) ∧
    (ValidateHtml rx0 (withSuppress vT) [tokStartB] ⟨3, 3⟩).2 =
      [⟨"b", "", "", ErrorReason.InvNotProperlyClosed⟩] := by
  constructor
  · intro rx v f tokens pos hcb hnone
    rcases hL : validateLoop rx v tokens [] with ⟨errs, ps, evs, stopped⟩
    have herrs : errs = [] := by
      have h := validateLoop_suppress rx v f hcb hnone tokens []
      rw [hL] at h
      simpa using h
    subst herrs
    rcases hP : checkParents v pos ps with ⟨eo, evs2⟩
    have heo : eo = none := by
      have h := checkParents_suppress v f hcb hnone pos ps
      rw [hP] at h
      simpa using h
    subst heo
    cases stopped <;> simp [ValidateHtml, hL, hP]
  · decide

/-- Witness for C7: the suppressed run over `<b>` returns no
violations. -/
theorem claim_C7_witness :
    (ValidateHtml rx0 (withSuppress vT) [tokStartB] ⟨3, 3⟩).1 = [] :=
  claim_C7_suppressing_callback.1 rx0 (withSuppress vT) suppressCb [tokStartB] ⟨3, 3⟩
    rfl (fun _ _ _ _ => rfl)

/-- C5: `IsValidAttribute` coincides with the spec's ordered
first-match over (a) global exact, (b) global pattern, (c) tag exact,
(d) tag pattern, returning false when nothing matches — in particular
false for an unknown tag with no global match, and true on a global
match whether or not the tag is registered.  The hypothesis records
that every registered rule record has its attribute set, which
`AddValidTags` guarantees. -/
theorem claim_C5_attribute_order (rx : RegexMatcher) (v : Validator) (tagName attrName : String)
    (hsync : ∀ k, (v.validTags k).isSome = true → (v.validTagMap k).isSome = true) :
    IsValidAttribute rx v tagName attrName = isValidAttributeSpec rx v tagName attrName := by
  have hg := hsync ""
  have ht := hsync tagName
  rcases hgm : v.validTagMap "" with _ | gAttrs <;>
    rcases hgt : v.validTags "" with _ | gtag <;>
      rcases htm : v.validTagMap tagName with _ | attrs <;>
        rcases htt : v.validTags tagName with _ | ttag <;>
          simp_all [IsValidAttribute, isValidAttributeSpec, globalExactAttr, globalPatternAttr,
            tagExactAttr, tagPatternAttr, Bool.or_assoc]

/-- Witness for C5 at a validator with both a global rule (attribute
pattern included) and a tag rule. -/
theorem claim_C5_witness :
    IsValidAttribute rxData vLit "a" "data-x" = isValidAttributeSpec rxData vLit "a" "data-x" :=
  claim_C5_attribute_order rxData vLit "a" "data-x" (by
    intro k hk
    by_cases h0 : k = ""
    · simp [vLit, h0]
    · by_cases h1 : k = "a" <;> simp_all [vLit])

/-- The scanning loop of `updateLineColumns` finds the line whose span
contains the offset: if the offset `k` lies between the accumulated
length of the first `idx` lines and that plus the length (plus one for
the delimiter) of line `idx`, the scan started at line index `i0` with
accumulated count `c0` reports 1-based line `i0 + idx + 1` and column
`k` minus the accumulated count plus one. -/
theorem findTextPos_spec (lines : List String) :
    ∀ (idx i0 c0 k : Nat), idx < lines.length →
      c0 + cum lines idx ≤ k →
      k < c0 + cum lines idx + ((lines.getD idx "").length + 1) →
      findTextPos k lines i0 c0 = some ⟨i0 + idx + 1, k - (c0 + cum lines idx) + 1⟩ := by
  induction lines with
  | nil => intro idx _ _ _ hi; simp at hi
  | cons l rest ih =>
    intro idx i0 c0 k hi h1 h2
    cases idx with
    | zero =>
      have hlt : k < c0 + (l.length + 1) := by
        simp only [cum, List.getD_cons_zero] at h2
        omega
      simp [findTextPos, hlt, cum]
    | succ n =>
      simp only [cum, List.getD_cons_succ] at h1 h2 ⊢
      have hge : ¬ k < c0 + (l.length + 1) := by omega
      have hrec := ih n (i0 + 1) (c0 + (l.length + 1)) k (by simpa using hi)
        (by omega) (by omega)
      simp only [findTextPos, hge, if_false, ite_false]
      rw [hrec]
      simp only [Option.some.injEq, TextPos.mk.injEq]
      omega

/-- C8: `updateLineColumns` enriches each violation independently with
a 1-based line and column: when the violation's start offset falls in
line `i` (zero-based) — that is, between the accumulated lengths-plus-
one of the lines before it and that plus this line's span — it receives
line `i + 1` and column `offset - accumulated + 1`.  For single-line
input this is the instance `i = 0`: offset `k` maps to line 1, column
`k + 1`. -/
theorem claim_C8_line_column (str : String) (e : ValidationError)
    (rest : List ValidationError) (i : Nat)
    (hi : i < (splitLines str).length)
    (h1 : cum (splitLines str) i ≤ e.Pos.Start)
    (h2 : e.Pos.Start < cum (splitLines str) i + (((splitLines str).getD i "").length + 1)) :
    updateLineColumns str (e :: rest) =
      { e with TextPos := some ⟨i + 1, e.Pos.Start - cum (splitLines str) i + 1⟩ } ::
        updateLineColumns str rest := by
  have h := findTextPos_spec (splitLines str) i 0 0 e.Pos.Start hi
    (by simpa using h1) (by simpa using h2)
  simp only [Nat.zero_add] at h
  simp [updateLineColumns, h]

/-- Witness for C8: offset 4 of `"ab\ncd"` lies in the second line and
maps to line 2, column 2. -/
theorem claim_C8_witness :
    updateLineColumns "ab\ncd" [err0] =
      [⟨"b", "k", ErrorReason.InvAttribute, ⟨4, 5⟩, some ⟨2, 2⟩⟩] :=
  claim_C8_line_column "ab\ncd" err0 [] 1 (by decide) (by decide) (by decide)

/-- Counterexample to C9: registering `a` as self-closing and then
re-registering it as non-self-closing leaves `IsValidSelfClosingTag`
answering per the old rule — the overwrite is not complete. -/
theorem claim_C9_counterexample :
    IsValidSelfClosingTag v9 "a" = true ∧ r9b.IsSelfClosing = false := by
  decide

/-- C9 (amended): re-registering a name overwrites the attribute map
and the rule record, so `IsValidTag` and `IsValidAttribute` answer
exactly as if only the new rule had been registered (last write wins,
also for the global empty name, where a second registration only logs a
warning); but the self-closing registry is add-only: the flag ends up
set if either registration (or the prior state) had it, so
`IsValidSelfClosingTag` can still answer per the old rule. -/
theorem claim_C9_reregistration (rx : RegexMatcher) (v : Validator) (r1 r2 : ValidTag)
    (h : r1.Name = r2.Name) :
    (AddValidTags v [r1, r2]).validTagMap r2.Name = (AddValidTags v [r2]).validTagMap r2.Name ∧
    (AddValidTags v [r1, r2]).validTags r2.Name = (AddValidTags v [r2]).validTags r2.Name ∧
    IsValidTag (AddValidTags v [r1, r2]) r2.Name = IsValidTag (AddValidTags v [r2]) r2.Name ∧
    IsValidAttribute rx (AddValidTags v [r1, r2]) r2.Name =
      IsValidAttribute rx (AddValidTags v [r2]) r2.Name ∧
    IsValidSelfClosingTag (AddValidTags v [r1, r2]) r2.Name =
      (r2.IsSelfClosing || (r1.IsSelfClosing || v.validSelfClosingTags r2.Name)) := by
  have hmap1 : ∀ k, (AddValidTags v [r1, r2]).validTagMap k =
      (AddValidTags v [r2]).validTagMap k := by
    intro k
    by_cases hk : k = r2.Name <;> simp [AddValidTags, addValidTag, h, hk]
  have htags1 : ∀ k, (AddValidTags v [r1, r2]).validTags k =
      (AddValidTags v [r2]).validTags k := by
    intro k
    by_cases hk : k = r2.Name <;> simp [AddValidTags, addValidTag, h, hk]
  refine ⟨hmap1 r2.Name, htags1 r2.Name, ?_, ?_, ?_⟩
  · simp [IsValidTag, hmap1 r2.Name]
  · funext a
    rw [IsValidAttribute, IsValidAttribute, hmap1 "", htags1 "", hmap1 r2.Name, htags1 r2.Name]
  · cases hb2 : r2.IsSelfClosing <;> cases hb1 : r1.IsSelfClosing <;>
      simp [AddValidTags, addValidTag, IsValidSelfClosingTag, hb1, hb2, h]

/-- Witness for C9 (amended) at the concrete re-registration of `a`. -/
theorem claim_C9_witness :
    (AddValidTags emptyValidator [r9a, r9b]).validTagMap r9b.Name =
      (AddValidTags emptyValidator [r9b]).validTagMap r9b.Name ∧
    (AddValidTags emptyValidator [r9a, r9b]).validTags r9b.Name =
      (AddValidTags emptyValidator [r9b]).validTags r9b.Name ∧
    IsValidTag (AddValidTags emptyValidator [r9a, r9b]) r9b.Name =
      IsValidTag (AddValidTags emptyValidator [r9b]) r9b.Name ∧
    IsValidAttribute rx0 (AddValidTags emptyValidator [r9a, r9b]) r9b.Name =
      IsValidAttribute rx0 (AddValidTags emptyValidator [r9b]) r9b.Name ∧
    IsValidSelfClosingTag (AddValidTags emptyValidator [r9a, r9b]) r9b.Name =
      (r9b.IsSelfClosing || (r9a.IsSelfClosing || emptyValidator.validSelfClosingTags r9b.Name)) :=
  claim_C9_reregistration rx0 emptyValidator r9a r9b rfl

end Htmlcheck
